import Mathlib

/-!
Shallow embedding of the telegram-webhook-service ingestion pipeline
(`src/models.py`, `src/webhook_handler.py`, `src/main.py`, `src/ai_agent.py`).

Conventions of the embedding:
* Raw request bodies are `List Nat` (byte sequences).
* Python `Optional[T]` fields become `Option T`; Python truthiness of an
  optional string / list is modelled by `pyTruthyStr` / `pyTruthyList`
  (`None`, `""` and `[]` are falsy).
* Machine-external primitives that the pipeline only composes — the
  HMAC-SHA256 hex digest, JSON decoding plus pydantic validation, UTF-8
  decoding, and the responder's reply computation — are abstract function
  parameters bundled in `ExternalFns`; every theorem quantifies over them.
* Python exceptions that the handler code raises and catches are the
  explicit `PyExc` values threaded through `Except`.
* Timestamps (`datetime.utcnow().timestamp()`) are modelled as integers;
  the rate limiter only subtracts and compares them.
-/

namespace TgService

/-- Model of `TelegramChat` (`src/models.py`): only the fields the pipeline
reads; `chat` is a required pydantic field, so it is not optional. -/
structure TelegramChat where
  id : Int
  type : String
  deriving Repr, DecidableEq

/-- Model of `TelegramUser` (`src/models.py`): only the fields the pipeline
reads (`id`; `first_name` kept as the other required field). -/
structure TelegramUser where
  id : Int
  first_name : String
  deriving Repr, DecidableEq

/-- Stand-in for an arbitrary JSON object (`Dict[str, Any]`); the pipeline
only ever tests such dicts for Python truthiness, i.e. non-emptiness. -/
abbrev JsonDict := List (String × String)

/-- Model of `TelegramMessage` (`src/models.py`). -/
structure TelegramMessage where
  message_id : Int
  chat : TelegramChat
  from_user : Option TelegramUser := none
  text : Option String := none
  entities : Option (List JsonDict) := none
  caption : Option String := none
  photo : Option (List JsonDict) := none
  document : Option JsonDict := none
  audio : Option JsonDict := none
  video : Option JsonDict := none
  deriving Repr, DecidableEq

/-- Model of `TelegramWebhook` (`src/models.py`): `update_id` plus the four
message-bearing sub-objects that `get_message` inspects.  The remaining
optional update kinds (`inline_query`, `callback_query`, ...) are never read
by the pipeline and are omitted. -/
structure TelegramWebhook where
  update_id : Int
  message : Option TelegramMessage := none
  edited_message : Option TelegramMessage := none
  channel_post : Option TelegramMessage := none
  edited_channel_post : Option TelegramMessage := none
  deriving Repr, DecidableEq

/-- Python truthiness of an optional string: `None` and `""` are falsy. -/
def pyTruthyStr : Option String → Bool
  | none => false
  | some s => !s.isEmpty

/-- Python truthiness of an optional list (or dict, modelled as a pair
list): `None` and the empty collection are falsy. -/
def pyTruthyList {α : Type} : Option (List α) → Bool
  | none => false
  | some l => !l.isEmpty

/-- Python `a or b` on two optional model objects.  Pydantic model
instances are always truthy, so the result is the first non-`None`
operand (`b` when `a` is `None`). -/
def pyOrOpt {α : Type} (a b : Option α) : Option α :=
  match a with
  | some x => some x
  | none => b

/-- Python `a or b` where `a` is an optional string: an absent or empty
`a` falls through to `b`, which is returned as-is. -/
def pyOrStr (a b : Option String) : Option String :=
  match a with
  | some s => if s.isEmpty then b else some s
  | none => b

/-- Python `a or b` where `a` is an optional int and `b` an int: an absent
or zero `a` falls through to `b` (`processed_webhook.id or 0`). -/
def pyOrInt (a : Option Int) (b : Int) : Int :=
  match a with
  | some n => if n = 0 then b else n
  | none => b

/-- `TelegramWebhook.get_message` (`src/models.py`):
`self.message or self.edited_message or self.channel_post or
self.edited_channel_post`. -/
def TelegramWebhook.get_message (w : TelegramWebhook) : Option TelegramMessage :=
  pyOrOpt w.message (pyOrOpt w.edited_message (pyOrOpt w.channel_post w.edited_channel_post))

/-- `TelegramWebhook.get_text` (`src/models.py`): `None` when no message is
present, else `message.text or message.caption`. -/
def TelegramWebhook.get_text (w : TelegramWebhook) : Option String :=
  match w.get_message with
  | none => none
  | some m => pyOrStr m.text m.caption

/-- Model of `ProcessedWebhook` (`src/models.py`); `processed_at` is a
wall-clock timestamp and is omitted. -/
structure ProcessedWebhook where
  id : Option Int := none
  update_id : Int
  chat_id : Option Int := none
  user_id : Option Int := none
  message_text : Option String := none
  message_type : String
  sent_to_ai : Bool := false
  ai_response : Option String := none
  raw_data : String
  deriving Repr, DecidableEq

/-- Model of `AIRequest` (`src/models.py`); the wall-clock `timestamp`
field is omitted. -/
structure AIRequest where
  webhook_id : Int
  update_id : Int
  chat_id : Option Int
  user_id : Option Int
  message_text : Option String
  message_type : String
  deriving Repr, DecidableEq

/-- Model of `AIResponse` (`src/models.py`); the wall-clock
`processing_time` field is omitted. -/
structure AIResponse where
  webhook_id : Int
  success : Bool
  response_text : Option String := none
  error_message : Option String := none
  deriving Repr, DecidableEq

/-- External primitives the pipeline composes but does not implement:
`hmacSha256Hex` is `hmac.new(secret, body, sha256).hexdigest()`;
`parseWebhook` is `json.loads` plus pydantic validation of
`TelegramWebhook` (`.error` carries the `ValueError` message raised by
`_parse_webhook_data`); `decodeUtf8` is `bytes.decode("utf-8")`;
`generateResponse` is the responder's inner computation
(`AIAgent._generate_response`), which may raise (`.error`). -/
structure ExternalFns where
  hmacSha256Hex : String → List Nat → String
  parseWebhook : List Nat → Except String TelegramWebhook
  decodeUtf8 : List Nat → String
  generateResponse : AIRequest → Except String String

/-- Python exceptions that flow through the handler: FastAPI
`HTTPException(status_code, detail)` and `ValueError(msg)`. -/
inductive PyExc
  | http (status : Nat) (detail : String)
  | valueError (msg : String)
  deriving Repr, DecidableEq

/-- Python `str(e)` for the exceptions above; `str` of a FastAPI
`HTTPException` is `"{status_code}: {detail}"` rendered with a colon. -/
def PyExc.str : PyExc → String
  | .http s d => toString s ++ ": " ++ d
  | .valueError m => m

/-- Model of configuration fields read by the pipeline (`src/config.py`);
defaults are the source defaults. -/
structure Config where
  WEBHOOK_SECRET_TOKEN : String := ""
  RATE_LIMIT : Nat := 100
  RATE_LIMIT_WINDOW : Int := 60
  deriving Repr, DecidableEq

/-- `WebhookProcessor._validate_signature` (`src/webhook_handler.py`),
called only when the secret is configured.  `request.headers.get(...)`
followed by `if not signature` treats an absent header and an empty-string
header alike; otherwise the header is compared (`hmac.compare_digest`,
which on equal strings returns their equality) against the hex HMAC of the
body keyed by the secret. -/
def validate_signature (fns : ExternalFns) (secret : String) (token : Option String)
    (body : List Nat) : Except PyExc Unit :=
  match token with
  | none => .error (.http 401 "Missing signature header")
  | some s =>
    if s.isEmpty then .error (.http 401 "Missing signature header")
    else if s = fns.hmacSha256Hex secret body then .ok ()
    else .error (.http 401 "Invalid signature")

/-- Combination of the `if config.WEBHOOK_SECRET_TOKEN:` guard in
`process_telegram_webhook` with `_validate_signature`: with an empty
(unconfigured) secret the check is skipped entirely.  This is the
`verify(secret, body, providedToken)` contract of the design. -/
def signatureCheck (fns : ExternalFns) (secret : String) (token : Option String)
    (body : List Nat) : Except PyExc Unit :=
  if secret.isEmpty then .ok () else validate_signature fns secret token body

/-- `WebhookProcessor._determine_message_type` (`src/webhook_handler.py`):
Python truthiness chain over the primary message's fields. -/
def determine_message_type (w : TelegramWebhook) : String :=
  match w.get_message with
  | none => "unknown"
  | some m =>
    if pyTruthyStr m.text then "text"
    else if pyTruthyList m.photo then "photo"
    else if pyTruthyList m.document then "document"
    else if pyTruthyList m.audio then "audio"
    else if pyTruthyList m.video then "video"
    else if pyTruthyList m.entities then "entities"
    else "other"

/-- Construction of the `ProcessedWebhook` record inside
`process_telegram_webhook`: no `id` is ever passed, so `id` is `none`. -/
def mkProcessedWebhook (fns : ExternalFns) (body : List Nat) (w : TelegramWebhook)
    (m : TelegramMessage) : ProcessedWebhook :=
  { update_id := w.update_id
    chat_id := some m.chat.id
    user_id := Option.map TelegramUser.id m.from_user
    message_text := w.get_text
    message_type := determine_message_type w
    raw_data := fns.decodeUtf8 body }

/-- Construction of the `AIRequest` inside `process_telegram_webhook`:
`webhook_id` is `processed_webhook.id or 0`. -/
def mkAIRequest (p : ProcessedWebhook) (w : TelegramWebhook) : AIRequest :=
  { webhook_id := pyOrInt p.id 0
    update_id := w.update_id
    chat_id := p.chat_id
    user_id := p.user_id
    message_text := p.message_text
    message_type := p.message_type }

/-- `AIAgent.process_webhook` (`src/ai_agent.py`): runs the inner reply
computation and captures any raised failure, returning `success := false`
with `error_message` set instead of propagating. -/
def aiProcessWebhook (fns : ExternalFns) (req : AIRequest) : AIResponse :=
  match fns.generateResponse req with
  | .ok t => { webhook_id := req.webhook_id, success := true, response_text := some t }
  | .error e => { webhook_id := req.webhook_id, success := false, error_message := some e }

/-- The `try` body of `WebhookProcessor.process_telegram_webhook`
(`src/webhook_handler.py`): signature check (guarded by the configured
secret), parse, primary-message extraction (raising `ValueError` when
absent), record construction, dispatch to the responder, and update of the
record with the responder outcome. -/
def processWebhookInner (fns : ExternalFns) (secret : String) (token : Option String)
    (body : List Nat) : Except PyExc ProcessedWebhook :=
  match signatureCheck fns secret token body with
  | .error e => .error e
  | .ok _ =>
    match fns.parseWebhook body with
    | .error e => .error (.valueError e)
    | .ok w =>
      match w.get_message with
      | none => .error (.valueError "No message found in webhook")
      | some m =>
        let p := mkProcessedWebhook fns body w m
        let resp := aiProcessWebhook fns (mkAIRequest p w)
        .ok { p with sent_to_ai := resp.success, ai_response := resp.response_text }

/-- In-memory counters of `WebhookProcessor` (`processed_count`,
`error_count`). -/
structure Stats where
  processed_count : Nat := 0
  error_count : Nat := 0
  deriving Repr, DecidableEq

/-- `WebhookProcessor.process_telegram_webhook` with its `except Exception`
wrapper: success increments `processed_count`; ANY exception raised inside
the `try` body — including the `HTTPException(401)` from
`_validate_signature` — increments `error_count` and is re-raised as
`HTTPException(400, "Webhook processing failed: " + str(e))`. -/
def process_telegram_webhook (fns : ExternalFns) (secret : String) (token : Option String)
    (body : List Nat) (st : Stats) : Stats × Except PyExc ProcessedWebhook :=
  match processWebhookInner fns secret token body with
  | .ok p => ({ st with processed_count := st.processed_count + 1 }, .ok p)
  | .error e =>
      ({ st with error_count := st.error_count + 1 },
       .error (.http 400 ("Webhook processing failed: " ++ e.str)))

/-- Snapshot returned by `WebhookProcessor.get_statistics` (the wall-clock
`timestamp` field is omitted); the success rate is exact rational
division. -/
structure StatsSnapshot where
  processed_count : Nat
  error_count : Nat
  success_rate : ℚ
  deriving Repr, DecidableEq

/-- `WebhookProcessor.get_statistics` (`src/webhook_handler.py`). -/
def get_statistics (st : Stats) : StatsSnapshot :=
  { processed_count := st.processed_count
    error_count := st.error_count
    success_rate :=
      if 0 < st.processed_count + st.error_count then
        (st.processed_count : ℚ) / ((st.processed_count : ℚ) + (st.error_count : ℚ))
      else 0 }

/-- The `RateLimiter.requests` dict (`ip_address -> [timestamps]`),
modelled as an association list. -/
abbrev RateMap := List (String × List Int)

/-- Dict lookup on the rate map. -/
def rateLookup : RateMap → String → Option (List Int)
  | [], _ => none
  | (k, v) :: rest, key => if k = key then some v else rateLookup rest key

/-- Dict update on the rate map: replaces the binding in place, appends a
fresh binding for an unseen key. -/
def rateSet : RateMap → String → List Int → RateMap
  | [], key, v => [(key, v)]
  | (k, w) :: rest, key, v =>
      if k = key then (k, v) :: rest else (k, w) :: rateSet rest key v

/-- `RateLimiter.is_allowed` (`src/webhook_handler.py`): purge the
client's stored timestamps down to those strictly newer than
`now - RATE_LIMIT_WINDOW` (an unseen client gets the empty list), store
the purged list, then reject if the remaining count reaches `RATE_LIMIT`,
else record `now` and admit. -/
def is_allowed (cfg : Config) (m : RateMap) (ip : String) (now : Int) : RateMap × Bool :=
  let window_start := now - cfg.RATE_LIMIT_WINDOW
  let kept :=
    match rateLookup m ip with
    | some ts => ts.filter (fun t => window_start < t)
    | none => []
  let m1 := rateSet m ip kept
  if cfg.RATE_LIMIT ≤ kept.length then (m1, false)
  else (rateSet m1 ip (kept ++ [now]), true)

/-- One inbound HTTP request as seen by the `/webhook/telegram` endpoint:
client address, optional `X-Telegram-Bot-Api-Secret-Token` header, raw
body bytes, and the arrival time used by the rate limiter. -/
structure HttpRequest where
  client_ip : String
  token : Option String
  body : List Nat
  now : Int
  deriving Repr, DecidableEq

/-- Process-wide mutable state: the rate limiter's dict and the webhook
processor's counters (module-level singletons in the source). -/
structure ServiceState where
  rate : RateMap := []
  stats : Stats := {}
  deriving Repr, DecidableEq

/-- The `processed_data` dict built into the success response by
`telegram_webhook` (`src/main.py`). -/
structure ProcessedData where
  update_id : Int
  chat_id : Option Int
  user_id : Option Int
  message_type : String
  sent_to_ai : Bool
  ai_response : Option String
  deriving Repr, DecidableEq

/-- Model of `WebhookResponse` (`src/models.py`) as populated by the
endpoint; the wall-clock `timestamp` field is omitted. -/
structure WebhookResponse where
  success : Bool
  message : String
  processed_data : Option ProcessedData := none
  deriving Repr, DecidableEq

/-- The `/webhook/telegram` endpoint `telegram_webhook` (`src/main.py`):
rate-limit check first (its purge mutates the rate map even on
rejection), then the empty-body check, then the processor; the
`except HTTPException: raise` clause passes processor exceptions through
unchanged. -/
def telegram_webhook (fns : ExternalFns) (cfg : Config) (st : ServiceState)
    (r : HttpRequest) : ServiceState × Except PyExc WebhookResponse :=
  let ra := is_allowed cfg st.rate r.client_ip r.now
  if ra.2 = false then
    ({ st with rate := ra.1 }, .error (.http 429 "Rate limit exceeded"))
  else if r.body.isEmpty then
    ({ st with rate := ra.1 }, .error (.http 400 "Empty request body"))
  else
    let pr := process_telegram_webhook fns cfg.WEBHOOK_SECRET_TOKEN r.token r.body st.stats
    match pr.2 with
    | .ok p =>
        ({ rate := ra.1, stats := pr.1 },
         .ok { success := true, message := "Webhook processed successfully",
               processed_data := some
                 { update_id := p.update_id, chat_id := p.chat_id, user_id := p.user_id,
                   message_type := p.message_type, sent_to_ai := p.sent_to_ai,
                   ai_response := p.ai_response } })
    | .error e => ({ rate := ra.1, stats := pr.1 }, .error e)

/-- Logical HTTP status of an endpoint outcome: a normal return is 200, a
raised `HTTPException` carries its own status, and a bare `ValueError`
would reach the generic 500 handler (the endpoint never lets one escape). -/
def statusOf : Except PyExc WebhookResponse → Nat
  | .ok _ => 200
  | .error (.http s _) => s
  | .error (.valueError _) => 500

/-- Terminal classification of one request against the current state,
following the endpoint's own checks in order: rejected by the rate
limiter, rejected for an empty body, failed inside the processor
(signature / parse / missing message), or dispatched to the responder. -/
inductive Outcome
  | rateLimited
  | emptyBody
  | procFailure
  | dispatched
  deriving Repr, DecidableEq

/-- Boolean recogniser for `Outcome.dispatched`. -/
def Outcome.isDispatched : Outcome → Bool
  | .dispatched => true
  | _ => false

/-- Boolean recogniser for `Outcome.procFailure`. -/
def Outcome.isProcFailure : Outcome → Bool
  | .procFailure => true
  | _ => false

/-- Classification of one request, replaying exactly the conditions
`telegram_webhook` evaluates on the given state. -/
def outcomeOf (fns : ExternalFns) (cfg : Config) (st : ServiceState) (r : HttpRequest) :
    Outcome :=
  if (is_allowed cfg st.rate r.client_ip r.now).2 = false then .rateLimited
  else if r.body.isEmpty then .emptyBody
  else
    match processWebhookInner fns cfg.WEBHOOK_SECRET_TOKEN r.token r.body with
    | .ok _ => .dispatched
    | .error _ => .procFailure

/-- Sequential execution of a trace of requests against the service
state. -/
def runService (fns : ExternalFns) (cfg : Config) : ServiceState → List HttpRequest → ServiceState
  | st, [] => st
  | st, r :: rest => runService fns cfg (telegram_webhook fns cfg st r).1 rest

/-- The outcome of each request of a trace, in order. -/
def outcomes (fns : ExternalFns) (cfg : Config) : ServiceState → List HttpRequest → List Outcome
  | _, [] => []
  | st, r :: rest =>
      outcomeOf fns cfg st r :: outcomes fns cfg (telegram_webhook fns cfg st r).1 rest

/-- Repeated calls of the rate limiter for one client at the given times
(the per-client scenario of the rate-window property). -/
def runCalls (cfg : Config) (ip : String) : RateMap → List Int → RateMap × List Bool
  | m, [] => (m, [])
  | m, t :: ts =>
      let step := is_allowed cfg m ip t
      let rest := runCalls cfg ip step.1 ts
      (rest.1, step.2 :: rest.2)

/-! Spec-worded reference definitions, used only to compare a claim's exact
wording against the source-derived functions above. -/

/-- Failure kinds of the specified `verify` contract. -/
inductive AuthError
  | MissingSignature
  | InvalidSignature
  deriving Repr, DecidableEq

/-- The signature-verification contract exactly as the claim words it:
with an empty secret always succeed; with a configured secret fail with
`MissingSignature` only when the token is absent, and otherwise succeed
precisely when the token equals the hex HMAC of the body (mismatch is
`InvalidSignature`). -/
def claimVerify (fns : ExternalFns) (secret : String) (token : Option String)
    (body : List Nat) : Except AuthError Unit :=
  if secret.isEmpty then .ok ()
  else
    match token with
    | none => .error .MissingSignature
    | some t => if t = fns.hmacSha256Hex secret body then .ok () else .error .InvalidSignature

/-- The content-type chain exactly as the claim words it, reading "text (if
text present)" and the other matches as field presence (`isSome`). -/
def claimMessageType (w : TelegramWebhook) : String :=
  match w.get_message with
  | none => "unknown"
  | some m =>
    if m.text.isSome then "text"
    else if m.photo.isSome then "photo"
    else if m.document.isSome then "document"
    else if m.audio.isSome then "audio"
    else if m.video.isSome then "video"
    else if m.entities.isSome then "entities"
    else "other"

/-- Primary-message selection exactly as the claim words it: the first
present of new message, edited message, channel post, edited channel
post. -/
def claimPrimaryMessage (w : TelegramWebhook) : Option TelegramMessage :=
  match w.message with
  | some m => some m
  | none =>
    match w.edited_message with
    | some m => some m
    | none =>
      match w.channel_post with
      | some m => some m
      | none => w.edited_channel_post

/-- One rate-limiter call on a single client's window exactly as the claim
words it: first purge the timestamps strictly older than
`now - windowSeconds` (the boundary timestamp is retained), then reject
without recording when the remaining count reaches the limit, else append
`now` and admit. -/
def claimRateCall (cfg : Config) (window : List Int) (now : Int) : List Int × Bool :=
  let kept := window.filter (fun t => now - cfg.RATE_LIMIT_WINDOW ≤ t)
  if cfg.RATE_LIMIT ≤ kept.length then (kept, false)
  else (kept ++ [now], true)

/-! Concrete fixtures used by counterexamples and witnesses. -/

/-- The chat of the end-to-end example payload of the design document. -/
def chatEx : TelegramChat := { id := 987654321, type := "private" }

/-- The message of the end-to-end example payload. -/
def mEx : TelegramMessage :=
  { message_id := 1, chat := chatEx,
    from_user := some { id := 987654321, first_name := "John" },
    text := some "hello" }

/-- An edited message, for the primary-message priority witness. -/
def mEdit : TelegramMessage :=
  { message_id := 2, chat := chatEx, text := some "edited" }

/-- The end-to-end example webhook. -/
def wEx : TelegramWebhook := { update_id := 123456789, message := some mEx }

/-- A webhook carrying both a new message and an edited message. -/
def wBoth : TelegramWebhook :=
  { update_id := 7, message := some mEx, edited_message := some mEdit }

/-- A message whose `text` is set but empty while a photo is attached. -/
def mEmptyText : TelegramMessage :=
  { message_id := 4, chat := chatEx, text := some "", photo := some [[]] }

/-- Webhook around `mEmptyText`. -/
def wEmptyText : TelegramWebhook := { update_id := 4, message := some mEmptyText }

/-- A message whose `text` and `caption` are both set but empty. -/
def mEmptyBoth : TelegramMessage :=
  { message_id := 5, chat := chatEx, text := some "", caption := some "" }

/-- Webhook around `mEmptyBoth`. -/
def wEmptyBoth : TelegramWebhook := { update_id := 5, message := some mEmptyBoth }

/-- A message with empty `text` and a non-empty `caption`. -/
def mCaption : TelegramMessage :=
  { message_id := 6, chat := chatEx, text := some "", caption := some "hi" }

/-- Webhook around `mCaption`. -/
def wCaption : TelegramWebhook := { update_id := 6, message := some mCaption }

/-- Concrete externals whose parser accepts every body as the example
webhook and whose responder succeeds. -/
def fnsOk : ExternalFns :=
  { hmacSha256Hex := fun _ _ => "aabb"
    parseWebhook := fun _ => .ok wEx
    decodeUtf8 := fun _ => "raw"
    generateResponse := fun _ => .ok "reply" }

/-- Concrete externals whose responder raises on every request. -/
def fnsBoom : ExternalFns :=
  { hmacSha256Hex := fun _ _ => "aabb"
    parseWebhook := fun _ => .ok wEx
    decodeUtf8 := fun _ => "raw"
    generateResponse := fun _ => .error "responder exploded" }

/-- Rate-limiter configuration with limit 1 and a 60-second window. -/
def cfgLimit1 : Config := { RATE_LIMIT := 1, RATE_LIMIT_WINDOW := 60 }

/-- Rate-limiter configuration with limit 2 and a 60-second window. -/
def cfgLimit2 : Config := { RATE_LIMIT := 2, RATE_LIMIT_WINDOW := 60 }

/-! ## Theorems -/

/-- C9: the processed record handed to the dispatch step never carries an
identifier (`id = none`), so the `webhook_id` of the `AIRequest` sent to
the responder — built as `processed_webhook.id or 0` — is always `0`.
`mkAIRequest (mkProcessedWebhook fns body w m) w` is exactly the argument
`processWebhookInner` passes to the responder. -/
theorem webhook_id_always_zero (fns : ExternalFns) (body : List Nat)
    (w : TelegramWebhook) (m : TelegramMessage) :
    (mkProcessedWebhook fns body w m).id = none ∧
    (mkAIRequest (mkProcessedWebhook fns body w m) w).webhook_id = 0 := by
  constructor <;> rfl

/-- C7: `get_message` selects the first present of new message, edited
message, channel post, edited channel post; it is `none` exactly when all
four variants are absent; and a payload carrying both a new and an edited
message selects the new message. -/
theorem primary_message_priority (w : TelegramWebhook) :
    w.get_message = claimPrimaryMessage w ∧
    (w.get_message = none ↔
      w.message = none ∧ w.edited_message = none ∧ w.channel_post = none ∧
        w.edited_channel_post = none) ∧
    (∀ m e, w.message = some m → w.edited_message = some e → w.get_message = some m) := by
  obtain ⟨u, msg, em, cp, ecp⟩ := w
  cases msg <;> cases em <;> cases cp <;> cases ecp <;>
    simp [TelegramWebhook.get_message, pyOrOpt, claimPrimaryMessage]

/-- C7 witness: a payload with both a new and an edited message selects
the new message. -/
theorem primary_message_priority_witness : wBoth.get_message = some mEx :=
  (primary_message_priority wBoth).2.2 mEx mEdit rfl rfl

/-- C10 counterexample: with `text = some ""` and `caption = some ""` the
extracted text is the empty string, not absent — `message.text or
message.caption` returns the caption as-is, so the claim's "both absent or
empty implies extracted text absent" fails at this input. -/
theorem get_text_empty_caption_counterexample :
    wEmptyBoth.get_text = some "" ∧ wEmptyBoth.get_text ≠ none := by
  constructor <;> decide

/-- C10 amended: an empty-string `text` falls through to the caption,
which is returned as-is (even when the caption is itself the empty
string); the extracted text is absent exactly when the caption is absent
and the text is absent or empty. -/
theorem get_text_spec (w : TelegramWebhook) (m : TelegramMessage)
    (h : w.get_message = some m) :
    (∀ c, m.text = some "" → m.caption = some c → w.get_text = some c) ∧
    (∀ c, m.text = none → m.caption = some c → w.get_text = some c) ∧
    (m.text = some "" → m.caption = none → w.get_text = none) ∧
    (m.text = none → m.caption = none → w.get_text = none) ∧
    (∀ s, m.text = some s → s ≠ "" → w.get_text = some s) := by
  refine ⟨?_, ?_, ?_, ?_, ?_⟩ <;> intros <;>
    simp_all [TelegramWebhook.get_text, pyOrStr, String.isEmpty_iff]

/-- C10 witness: empty text with caption `"hi"` extracts `"hi"`. -/
theorem get_text_spec_witness : wCaption.get_text = some "hi" :=
  (get_text_spec wCaption mCaption rfl).1 "hi" rfl rfl

/-- C6 counterexample: a message whose `text` field is present but the
empty string and which carries a photo classifies as `"photo"` in the
source (Python truthiness), while the claim's presence-based chain
classifies it as `"text"`. -/
theorem message_type_empty_text_counterexample :
    determine_message_type wEmptyText = "photo" ∧
    claimMessageType wEmptyText = "text" := by
  constructor <;> decide

/-- C6 amended: classification is the first match of the fixed chain
text > photo > document > audio > video > entities > other, where each
field matches only when Python-truthy (a non-empty string or non-empty
collection, not merely present); and the classification is `"unknown"`
iff no sub-message is present. -/
theorem message_type_chain (w : TelegramWebhook) :
    (∀ m, w.get_message = some m →
      (pyTruthyStr m.text = true → determine_message_type w = "text") ∧
      (pyTruthyStr m.text = false → pyTruthyList m.photo = true →
        determine_message_type w = "photo") ∧
      (pyTruthyStr m.text = false → pyTruthyList m.photo = false →
        pyTruthyList m.document = true → determine_message_type w = "document") ∧
      (pyTruthyStr m.text = false → pyTruthyList m.photo = false →
        pyTruthyList m.document = false → pyTruthyList m.audio = true →
        determine_message_type w = "audio") ∧
      (pyTruthyStr m.text = false → pyTruthyList m.photo = false →
        pyTruthyList m.document = false → pyTruthyList m.audio = false →
        pyTruthyList m.video = true → determine_message_type w = "video") ∧
      (pyTruthyStr m.text = false → pyTruthyList m.photo = false →
        pyTruthyList m.document = false → pyTruthyList m.audio = false →
        pyTruthyList m.video = false → pyTruthyList m.entities = true →
        determine_message_type w = "entities") ∧
      (pyTruthyStr m.text = false → pyTruthyList m.photo = false →
        pyTruthyList m.document = false → pyTruthyList m.audio = false →
        pyTruthyList m.video = false → pyTruthyList m.entities = false →
        determine_message_type w = "other")) ∧
    (determine_message_type w = "unknown" ↔ w.get_message = none) := by
  constructor
  · intro m hm
    refine ⟨?_, ?_, ?_, ?_, ?_, ?_, ?_⟩ <;> intros <;>
      simp_all [determine_message_type]
  · cases hm : w.get_message with
    | none => simp [determine_message_type, hm]
    | some m =>
      simp only [determine_message_type, hm]
      constructor
      · intro hcontra
        split_ifs at hcontra <;> simp_all
      · intro hcontra
        exact absurd hcontra (by simp)

/-- C6 witness: the example message with non-empty text classifies as
`"text"`. -/
theorem message_type_chain_witness : determine_message_type wEx = "text" :=
  ((message_type_chain wEx).1 mEx rfl).1 rfl

/-- C4 counterexample: with a configured secret and a PRESENT but
empty-string token, the source fails with the missing-signature error
(`if not signature` treats `""` like an absent header), while the claim's
verify contract mandates `InvalidSignature` for any present, mismatching
token. -/
theorem signature_empty_token_counterexample :
    signatureCheck fnsOk "s" (some "") [1] =
      Except.error (PyExc.http 401 "Missing signature header") ∧
    claimVerify fnsOk "s" (some "") [1] = Except.error AuthError.InvalidSignature := by
  constructor <;> rfl

/-- C4 amended: with an empty secret verification always succeeds; with a
configured secret an absent OR empty token fails with the
missing-signature error, and a present non-empty token succeeds exactly
when it equals the hex HMAC-SHA256 of the body keyed by the secret,
failing with the invalid-signature error on mismatch.  The check is a
pure function of `(secret, token, body)` by construction. -/
theorem signature_check_spec (fns : ExternalFns) (secret : String)
    (token : Option String) (body : List Nat) :
    (secret = "" → signatureCheck fns secret token body = Except.ok ()) ∧
    (secret ≠ "" → token = none ∨ token = some "" →
      signatureCheck fns secret token body =
        Except.error (PyExc.http 401 "Missing signature header")) ∧
    (secret ≠ "" → ∀ t, token = some t → t ≠ "" →
      (signatureCheck fns secret token body = Except.ok () ↔
        t = fns.hmacSha256Hex secret body)) ∧
    (secret ≠ "" → ∀ t, token = some t → t ≠ "" → t ≠ fns.hmacSha256Hex secret body →
      signatureCheck fns secret token body =
        Except.error (PyExc.http 401 "Invalid signature")) := by
  have hemp : ∀ s : String, s ≠ "" → s.isEmpty = false := by
    intro s hs
    cases hcase : s.isEmpty
    · rfl
    · exact absurd ((String.isEmpty_iff s).mp hcase) hs
  refine ⟨?_, ?_, ?_, ?_⟩
  · intro h
    subst h
    rfl
  · rintro h (rfl | rfl)
    · simp [signatureCheck, validate_signature, hemp secret h]
    · have hee : ("" : String).isEmpty = true := rfl
      simp [signatureCheck, validate_signature, hemp secret h, hee]
  · rintro h t rfl ht
    simp only [signatureCheck, validate_signature, hemp secret h, hemp t ht,
      Bool.false_eq_true, if_false]
    split_ifs with hh <;> simp [hh]
  · rintro h t rfl ht hne
    simp [signatureCheck, validate_signature, hemp secret h, hemp t ht, hne]

/-- C4 witness: with secret `"s"` and the token equal to the digest the
check succeeds. -/
theorem signature_check_spec_witness :
    signatureCheck fnsOk "s" (some "aabb") [1] = Except.ok () :=
  ((signature_check_spec fnsOk "s" (some "aabb") [1]).2.2.1 (by decide) "aabb" rfl
    (by decide)).mpr rfl

/-- C5: an admitted request with an empty raw body is rejected with the
empty-body error regardless of the signature token and the configured
secret — the empty-body check runs before the signature check and before
parsing. -/
theorem empty_body_before_signature (fns : ExternalFns) (cfg : Config)
    (st : ServiceState) (r : HttpRequest)
    (hadm : (is_allowed cfg st.rate r.client_ip r.now).2 = true)
    (hbody : r.body = []) :
    (telegram_webhook fns cfg st r).2 = Except.error (PyExc.http 400 "Empty request body") := by
  simp [telegram_webhook, hadm, hbody]

/-- C5 witness: with a configured secret and an invalid token, an empty
body still yields the empty-body rejection, not the signature error. -/
theorem empty_body_before_signature_witness :
    (telegram_webhook fnsOk { WEBHOOK_SECRET_TOKEN := "s" } {}
        { client_ip := "c", token := some "WRONG", body := [], now := 0 }).2 =
      Except.error (PyExc.http 400 "Empty request body") :=
  empty_body_before_signature fnsOk { WEBHOOK_SECRET_TOKEN := "s" } {}
    { client_ip := "c", token := some "WRONG", body := [], now := 0 } rfl rfl

/-- C1: evaluating the endpoint at a request that fails signature
verification (secret configured, token missing, body non-empty and
parseable) shows the logical response code is 400, not the 401 the claim
states: the blanket `except Exception` in `process_telegram_webhook`
catches the `HTTPException(401)` raised by `_validate_signature` and
re-raises it as `HTTPException(400, "Webhook processing failed: 401:
Missing signature header")`. -/
theorem signature_failure_returns_400 :
    (telegram_webhook fnsOk { WEBHOOK_SECRET_TOKEN := "s" } {}
        { client_ip := "c", token := none, body := [1], now := 0 }).2 =
      Except.error (PyExc.http 400
        ("Webhook processing failed: " ++ PyExc.str (PyExc.http 401 "Missing signature header"))) ∧
    statusOf (telegram_webhook fnsOk { WEBHOOK_SECRET_TOKEN := "s" } {}
        { client_ip := "c", token := none, body := [1], now := 0 }).2 = 400 := by
  constructor <;> rfl

/-- C8: when the responder raises on the dispatched request, its failure
is captured into an `AIResponse` with `success = false` and
`error_message` set; the pipeline still completes with logical status 200
and a success response whose `sent_to_ai` field is `false` — it never
aborts because the responder failed. -/
theorem responder_failure_captured (fns : ExternalFns) (cfg : Config)
    (st : ServiceState) (r : HttpRequest) (w : TelegramWebhook)
    (m : TelegramMessage) (e : String)
    (hadm : (is_allowed cfg st.rate r.client_ip r.now).2 = true)
    (hbody : r.body ≠ [])
    (hsig : signatureCheck fns cfg.WEBHOOK_SECRET_TOKEN r.token r.body = Except.ok ())
    (hparse : fns.parseWebhook r.body = Except.ok w)
    (hmsg : w.get_message = some m)
    (hgen : fns.generateResponse (mkAIRequest (mkProcessedWebhook fns r.body w m) w) =
      Except.error e) :
    (aiProcessWebhook fns (mkAIRequest (mkProcessedWebhook fns r.body w m) w)).success =
      false ∧
    (aiProcessWebhook fns (mkAIRequest (mkProcessedWebhook fns r.body w m) w)).error_message =
      some e ∧
    statusOf (telegram_webhook fns cfg st r).2 = 200 ∧
    (telegram_webhook fns cfg st r).2 =
      Except.ok { success := true, message := "Webhook processed successfully",
                  processed_data := some
                    { update_id := w.update_id, chat_id := some m.chat.id,
                      user_id := Option.map TelegramUser.id m.from_user,
                      message_type := determine_message_type w,
                      sent_to_ai := false, ai_response := none } } := by
  have hbe : r.body.isEmpty = false := by
    cases hb : r.body
    · exact absurd hb hbody
    · rfl
  have hinner : processWebhookInner fns cfg.WEBHOOK_SECRET_TOKEN r.token r.body =
      Except.ok { mkProcessedWebhook fns r.body w m with
                  sent_to_ai := false, ai_response := none } := by
    simp only [processWebhookInner, hsig, hparse, hmsg, aiProcessWebhook, hgen]
  have hrun : (telegram_webhook fns cfg st r).2 =
      Except.ok { success := true, message := "Webhook processed successfully",
                  processed_data := some
                    { update_id := w.update_id, chat_id := some m.chat.id,
                      user_id := Option.map TelegramUser.id m.from_user,
                      message_type := determine_message_type w,
                      sent_to_ai := false, ai_response := none } } := by
    simp [telegram_webhook, hadm, hbe, process_telegram_webhook, hinner,
      mkProcessedWebhook]
  refine ⟨by simp [aiProcessWebhook, hgen], by simp [aiProcessWebhook, hgen], ?_, hrun⟩
  rw [hrun]
  rfl

/-- C8 witness: with a responder that raises `"responder exploded"`, a
parseable request still yields a 200 with `sent_to_ai = false`. -/
theorem responder_failure_captured_witness :
    statusOf (telegram_webhook fnsBoom {} {}
        { client_ip := "c", token := none, body := [1], now := 0 }).2 = 200 ∧
    (aiProcessWebhook fnsBoom
        (mkAIRequest (mkProcessedWebhook fnsBoom [1] wEx mEx) wEx)).success = false := by
  have h := responder_failure_captured fnsBoom {} {}
    { client_ip := "c", token := none, body := [1], now := 0 } wEx mEx
    "responder exploded" rfl (by decide) rfl rfl rfl rfl
  exact ⟨h.2.2.1, h.1⟩

/-- Per-request effect of the endpoint on the counters: `processed_count`
grows by one exactly when the request reaches the dispatch step, and
`error_count` grows by one exactly when it fails inside the processor;
rate-limited and empty-body rejections touch neither counter. -/
theorem telegram_webhook_stats_step (fns : ExternalFns) (cfg : Config)
    (st : ServiceState) (r : HttpRequest) :
    (telegram_webhook fns cfg st r).1.stats.processed_count =
      st.stats.processed_count +
        (if Outcome.isDispatched (outcomeOf fns cfg st r) then 1 else 0) ∧
    (telegram_webhook fns cfg st r).1.stats.error_count =
      st.stats.error_count +
        (if Outcome.isProcFailure (outcomeOf fns cfg st r) then 1 else 0) := by
  by_cases h1 : (is_allowed cfg st.rate r.client_ip r.now).2 = false
  · simp [telegram_webhook, outcomeOf, h1, Outcome.isDispatched, Outcome.isProcFailure]
  · by_cases h2 : r.body.isEmpty
    · simp [telegram_webhook, outcomeOf, h1, h2, Outcome.isDispatched,
        Outcome.isProcFailure]
    · cases h3 : processWebhookInner fns cfg.WEBHOOK_SECRET_TOKEN r.token r.body <;>
        simp [telegram_webhook, outcomeOf, h1, h2, h3, process_telegram_webhook,
          Outcome.isDispatched, Outcome.isProcFailure]

/-- Trace-level counter accounting, generalised over the starting state. -/
theorem runService_counts (fns : ExternalFns) (cfg : Config) :
    ∀ (reqs : List HttpRequest) (st : ServiceState),
      (runService fns cfg st reqs).stats.processed_count =
        st.stats.processed_count +
          (outcomes fns cfg st reqs).countP Outcome.isDispatched ∧
      (runService fns cfg st reqs).stats.error_count =
        st.stats.error_count +
          (outcomes fns cfg st reqs).countP Outcome.isProcFailure
  | [], st => by simp [runService, outcomes]
  | r :: rest, st => by
      obtain ⟨hp, he⟩ := telegram_webhook_stats_step fns cfg st r
      obtain ⟨ihp, ihe⟩ := runService_counts fns cfg rest (telegram_webhook fns cfg st r).1
      constructor
      · rw [runService, outcomes, List.countP_cons, ihp, hp]
        omega
      · rw [runService, outcomes, List.countP_cons, ihe, he]
        omega

/-- C2 amended: over any execution trace from process start,
`processedCount` is the number of requests that reach the dispatch step
and `errorCount` is the number of requests that terminally fail INSIDE the
processor (signature, parse, or missing message — steps 3 and 4); requests
rejected by the rate limiter or for an empty body (steps 1 and 2) are NOT
counted in `errorCount`; `successRate` is `N/(N+M)` over those two
counts, and `0` when both are zero. -/
theorem stats_accounting (fns : ExternalFns) (cfg : Config) (reqs : List HttpRequest) :
    (get_statistics (runService fns cfg {} reqs).stats).processed_count =
      (outcomes fns cfg {} reqs).countP Outcome.isDispatched ∧
    (get_statistics (runService fns cfg {} reqs).stats).error_count =
      (outcomes fns cfg {} reqs).countP Outcome.isProcFailure ∧
    (get_statistics (runService fns cfg {} reqs).stats).success_rate =
      (if (outcomes fns cfg {} reqs).countP Outcome.isDispatched +
            (outcomes fns cfg {} reqs).countP Outcome.isProcFailure = 0 then 0
       else ((outcomes fns cfg {} reqs).countP Outcome.isDispatched : ℚ) /
         (((outcomes fns cfg {} reqs).countP Outcome.isDispatched : ℚ) +
           ((outcomes fns cfg {} reqs).countP Outcome.isProcFailure : ℚ))) := by
  obtain ⟨hp, he⟩ := runService_counts fns cfg reqs {}
  have hp0 : (runService fns cfg {} reqs).stats.processed_count =
      (outcomes fns cfg {} reqs).countP Outcome.isDispatched := by
    simpa using hp
  have he0 : (runService fns cfg {} reqs).stats.error_count =
      (outcomes fns cfg {} reqs).countP Outcome.isProcFailure := by
    simpa using he
  refine ⟨by simp [get_statistics, hp0], by simp [get_statistics, he0], ?_⟩
  simp only [get_statistics, hp0, he0]
  split_ifs with h1 h2 <;> first | rfl | omega

/-- C2 counterexample: a one-request trace whose single request is
admitted but has an empty body is a terminal failure at step 2, so the
claim requires `errorCount = 1`; the source leaves `error_count` at `0`
because the empty-body rejection happens in the endpoint before the
processor's counters are touched. -/
theorem stats_empty_body_not_counted :
    outcomes fnsOk {} {} [{ client_ip := "c", token := none, body := [], now := 0 }] =
      [Outcome.emptyBody] ∧
    (get_statistics (runService fnsOk {} {}
        [{ client_ip := "c", token := none, body := [], now := 0 }]).stats).error_count = 0 := by
  constructor <;> rfl

/-- Looking up a key right after setting it returns the value just set. -/
theorem rateLookup_rateSet_self : ∀ (m : RateMap) (k : String) (v : List Int),
    rateLookup (rateSet m k v) k = some v
  | [], k, v => by simp [rateSet, rateLookup]
  | (k0, v0) :: rest, k, v => by
      by_cases h : k0 = k
      · simp [rateSet, rateLookup, h]
      · simp [rateSet, rateLookup, h, rateLookup_rateSet_self rest k v]

/-- Normal form of `is_allowed`: the unseen-client branch is the same as
an empty stored window. -/
theorem is_allowed_eq (cfg : Config) (m : RateMap) (ip : String) (now : Int) :
    is_allowed cfg m ip now =
      (let kept := ((rateLookup m ip).getD []).filter
          (fun t => now - cfg.RATE_LIMIT_WINDOW < t)
       if cfg.RATE_LIMIT ≤ kept.length then (rateSet m ip kept, false)
       else (rateSet (rateSet m ip kept) ip (kept ++ [now]), true)) := by
  cases h : rateLookup m ip <;> simp [is_allowed, h]

/-- A filter that every element satisfies is the identity. -/
theorem filter_true_of_mem {α : Type} (p : α → Bool) :
    ∀ l : List α, (∀ a ∈ l, p a = true) → l.filter p = l
  | [], _ => rfl
  | a :: l, h => by
      have ha := h a (List.mem_cons_self a l)
      simp [List.filter_cons, ha,
        filter_true_of_mem p l (fun b hb => h b (List.mem_cons_of_mem a hb))]

/-- Inductive core of the rate-window scenario: starting from a stored
window `pre` of timestamps no earlier than `t0`, a run of further calls at
times inside `[t0, t0 + window)` is fully admitted as long as the total
count stays within the limit, and afterwards the stored window is `pre`
followed by those times. -/
theorem runCalls_admits (cfg : Config) (c : String) (t0 : Int) :
    ∀ (times pre : List Int) (m : RateMap),
      rateLookup m c = some pre →
      pre.length + times.length ≤ cfg.RATE_LIMIT →
      (∀ t ∈ pre, t0 ≤ t) →
      (∀ t ∈ times, t0 ≤ t ∧ t < t0 + cfg.RATE_LIMIT_WINDOW) →
      (runCalls cfg c m times).2 = List.replicate times.length true ∧
      rateLookup (runCalls cfg c m times).1 c = some (pre ++ times)
  | [], pre, m, hlook, _, _, _ => by simp [runCalls, hlook]
  | t :: ts, pre, m, hlook, hlen, hpre, htimes => by
      obtain ⟨ht0, htw⟩ := htimes t (List.mem_cons_self t ts)
      have hkeep : pre.filter (fun x => decide (t - cfg.RATE_LIMIT_WINDOW < x)) = pre := by
        refine filter_true_of_mem _ pre fun x hx => ?_
        have hx0 := hpre x hx
        simp only [decide_eq_true_eq]
        omega
      have hcount : ¬ cfg.RATE_LIMIT ≤ pre.length := by
        simp only [List.length_cons] at hlen
        omega
      have hstep : is_allowed cfg m c t =
          (rateSet (rateSet m c pre) c (pre ++ [t]), true) := by
        rw [is_allowed_eq]
        simp only [hlook, Option.getD_some, hkeep, if_neg hcount]
      have hlook2 : rateLookup (rateSet (rateSet m c pre) c (pre ++ [t])) c =
          some (pre ++ [t]) := rateLookup_rateSet_self _ c _
      obtain ⟨ih1, ih2⟩ := runCalls_admits cfg c t0 ts (pre ++ [t])
        (rateSet (rateSet m c pre) c (pre ++ [t])) hlook2
        (by simp only [List.length_append, List.length_singleton, List.length_nil,
              List.length_cons] at hlen ⊢; omega)
        (by intro x hx
            rcases List.mem_append.mp hx with hx | hx
            · exact hpre x hx
            · simp only [List.mem_singleton] at hx
              omega)
        (fun x hx => htimes x (List.mem_cons_of_mem t hx))
      constructor
      · simp only [runCalls, hstep, ih1, List.length_cons, List.replicate_succ]
      · simp only [runCalls, hstep, ih2, List.append_assoc, List.singleton_append]

/-- C3 amended: each `admit(clientId, now)` call first purges the
timestamps AT OR older than `now - windowSeconds` (only strictly newer
ones are retained; the claim's strict "older than" purge differs at the
boundary), then rejects without recording when the remaining count
reaches the limit and otherwise appends `now` and admits.  Consequently a
client issuing exactly `limit` requests inside `[t0, t0 + window)` is
admitted every time; one more request strictly inside that window is
rejected and leaves the stored window unchanged; and a request strictly
past `t0 + window` is admitted again. -/
theorem rate_limiter_spec (cfg : Config) (c : String) (t0 : Int) (rest : List Int)
    (hlen : (t0 :: rest).length = cfg.RATE_LIMIT)
    (hin : ∀ t ∈ t0 :: rest, t0 ≤ t ∧ t < t0 + cfg.RATE_LIMIT_WINDOW) :
    (∀ (m : RateMap) (ip : String) (now : Int),
      let kept := ((rateLookup m ip).getD []).filter
        (fun t => now - cfg.RATE_LIMIT_WINDOW < t)
      (kept.length < cfg.RATE_LIMIT →
        (is_allowed cfg m ip now).2 = true ∧
        rateLookup (is_allowed cfg m ip now).1 ip = some (kept ++ [now])) ∧
      (cfg.RATE_LIMIT ≤ kept.length →
        (is_allowed cfg m ip now).2 = false ∧
        rateLookup (is_allowed cfg m ip now).1 ip = some kept)) ∧
    ((runCalls cfg c [] (t0 :: rest)).2 = List.replicate cfg.RATE_LIMIT true ∧
      rateLookup (runCalls cfg c [] (t0 :: rest)).1 c = some (t0 :: rest)) ∧
    (∀ now, t0 ≤ now → now < t0 + cfg.RATE_LIMIT_WINDOW →
      (is_allowed cfg (runCalls cfg c [] (t0 :: rest)).1 c now).2 = false ∧
      rateLookup (is_allowed cfg (runCalls cfg c [] (t0 :: rest)).1 c now).1 c =
        some (t0 :: rest)) ∧
    (∀ now, t0 + cfg.RATE_LIMIT_WINDOW < now →
      (is_allowed cfg (runCalls cfg c [] (t0 :: rest)).1 c now).2 = true) := by
  have hpos : 0 < cfg.RATE_LIMIT := by
    simp only [List.length_cons] at hlen
    omega
  have hpercall : ∀ (m : RateMap) (ip : String) (now : Int),
      let kept := ((rateLookup m ip).getD []).filter
        (fun t => now - cfg.RATE_LIMIT_WINDOW < t)
      (kept.length < cfg.RATE_LIMIT →
        (is_allowed cfg m ip now).2 = true ∧
        rateLookup (is_allowed cfg m ip now).1 ip = some (kept ++ [now])) ∧
      (cfg.RATE_LIMIT ≤ kept.length →
        (is_allowed cfg m ip now).2 = false ∧
        rateLookup (is_allowed cfg m ip now).1 ip = some kept) := by
    intro m ip now
    rw [is_allowed_eq]
    constructor
    · intro hlt
      rw [if_neg (by omega)]
      exact ⟨rfl, rateLookup_rateSet_self _ ip _⟩
    · intro hge
      rw [if_pos hge]
      exact ⟨rfl, rateLookup_rateSet_self _ ip _⟩
  -- the run of exactly `limit` admitted calls
  have hfirst : is_allowed cfg [] c t0 = (rateSet (rateSet [] c []) c [t0], true) := by
    rw [is_allowed_eq]
    simp only [rateLookup, Option.getD_none, List.filter_nil, List.length_nil,
      List.nil_append]
    rw [if_neg (by omega)]
  have hrun : (runCalls cfg c [] (t0 :: rest)).2 = List.replicate cfg.RATE_LIMIT true ∧
      rateLookup (runCalls cfg c [] (t0 :: rest)).1 c = some (t0 :: rest) := by
    obtain ⟨ih1, ih2⟩ := runCalls_admits cfg c t0 rest [t0]
      (rateSet (rateSet [] c []) c [t0]) (rateLookup_rateSet_self _ c _)
      (by simp only [List.length_cons] at hlen
          simp only [List.length_singleton]
          omega)
      (by intro x hx
          simp only [List.mem_singleton] at hx
          omega)
      (fun x hx => hin x (List.mem_cons_of_mem t0 hx))
    constructor
    · simp only [runCalls, hfirst, ih1]
      simp only [List.length_cons] at hlen
      rw [← hlen, List.replicate_succ]
    · simp only [runCalls, hfirst, ih2, List.singleton_append]
  refine ⟨hpercall, hrun, ?_, ?_⟩
  · intro now hn0 hnw
    have hkeep : (t0 :: rest).filter
        (fun x => decide (now - cfg.RATE_LIMIT_WINDOW < x)) = t0 :: rest := by
      refine filter_true_of_mem _ _ fun x hx => ?_
      have := (hin x hx).1
      simp only [decide_eq_true_eq]
      omega
    have h := (hpercall (runCalls cfg c [] (t0 :: rest)).1 c now).2
    simp only [hrun.2, Option.getD_some, hkeep] at h
    exact h (by rw [← hlen])
  · intro now hnw
    have hp0 : (fun x => decide (now - cfg.RATE_LIMIT_WINDOW < x)) t0 = false := by
      simp only [decide_eq_false_iff_not]
      omega
    have hshort : ((t0 :: rest).filter
        (fun x => decide (now - cfg.RATE_LIMIT_WINDOW < x))).length < cfg.RATE_LIMIT := by
      rw [List.filter_cons, if_neg (by simp [hp0])]
      have := rest.length_filter_le (fun x => decide (now - cfg.RATE_LIMIT_WINDOW < x))
      simp only [List.length_cons] at hlen
      omega
    have h := (hpercall (runCalls cfg c [] (t0 :: rest)).1 c now).1
    simp only [hrun.2, Option.getD_some] at h
    exact (h hshort).1

/-- C3 counterexample: with limit 1 and a 60-second window, a first
request at time 0 is admitted; at time 60 the stored timestamp 0 sits
exactly at `now - windowSeconds`.  The claim's purge ("older than
`now - windowSeconds`") retains it, leaving a full window, so the claim
says this call returns `false`; the source purges it (`timestamp >
window_start` keeps strictly newer entries only) and admits the call. -/
theorem rate_limiter_boundary_counterexample :
    (is_allowed cfgLimit1 [] "c" 0).2 = true ∧
    rateLookup (is_allowed cfgLimit1 [] "c" 0).1 "c" = some [0] ∧
    (is_allowed cfgLimit1 (is_allowed cfgLimit1 [] "c" 0).1 "c" 60).2 = true ∧
    claimRateCall cfgLimit1 [0] 60 = ([0], false) := by
  refine ⟨rfl, rfl, rfl, ?_⟩
  rfl

/-- C3 witness: limit 2, window 60; calls at times 0 and 10 are both
admitted, a third call at 59 is rejected, and a call at 61 (past the
window of the first request) is admitted again. -/
theorem rate_limiter_spec_witness :
    (runCalls cfgLimit2 "c" [] [0, 10]).2 = [true, true] ∧
    (is_allowed cfgLimit2 (runCalls cfgLimit2 "c" [] [0, 10]).1 "c" 59).2 = false ∧
    (is_allowed cfgLimit2 (runCalls cfgLimit2 "c" [] [0, 10]).1 "c" 61).2 = true := by
  have h := rate_limiter_spec cfgLimit2 "c" 0 [10] rfl
    (by intro t ht
        simp only [List.mem_cons, List.mem_singleton] at ht
        rcases ht with rfl | rfl | h
        · constructor <;> decide
        · constructor <;> decide
        · cases h)
  refine ⟨?_, (h.2.2.1 59 (by decide) (by decide)).1, h.2.2.2 61 (by decide)⟩
  have := h.2.1.1
  simpa using this

end TgService
